import Mathlib

/-!
Verification development for `check_opnsense_stats.py`, a monitoring probe
that queries an OPNsense firewall API for CPU load, memory usage and disk
usage, classifies each metric against warning/critical thresholds, and
prints one Nagios-style status line whose severity is also the process
exit code.

The script is embedded shallowly: JSON values, Python numeric conversions
(`int(...)`, `float(...)`), exception behaviour of the `try`/`except`
blocks, string formatting, the threshold classifier, the three metric
blocks and the overall run are executable Lean functions translated from
the source.  Python numbers are modelled exactly: `int` as `ℤ` and
`float` as an exact rational (`Q` below); the decimals appearing in this
development are small and exactly representable as binary doubles, so the
exact model agrees with double arithmetic on them.
-/

/-- An exact rational with a positive denominator, modelling the values of
Python floats.  Kept unnormalized; equality is never taken structurally,
only order comparisons and integrality tests are used. -/
structure Q where
  num : ℤ
  den : ℤ
  den_pos : 0 < den

instance (n : ℕ) : OfNat Q n := ⟨⟨(n : ℤ), 1, by decide⟩⟩

def Q.ofInt (n : ℤ) : Q := ⟨n, 1, by decide⟩

def Q.add (a b : Q) : Q :=
  ⟨a.num * b.den + b.num * a.den, a.den * b.den, mul_pos a.den_pos b.den_pos⟩

def Q.neg (a : Q) : Q := ⟨-a.num, a.den, a.den_pos⟩

def Q.sub (a b : Q) : Q := a.add b.neg

def Q.mul (a b : Q) : Q :=
  ⟨a.num * b.num, a.den * b.den, mul_pos a.den_pos b.den_pos⟩

/-- Division; division by zero is unreachable in the script (the only
divisions are by a positive total and by a power of ten). -/
def Q.div (a b : Q) : Q :=
  if h : 0 < b.num then ⟨a.num * b.den, a.den * b.num, mul_pos a.den_pos h⟩
  else if h2 : b.num < 0 then ⟨-(a.num * b.den), a.den * -b.num, mul_pos a.den_pos (by omega)⟩
  else ⟨0, 1, by decide⟩

/-- Multiply by `10 ^ d`. -/
def Q.scale (a : Q) (d : ℕ) : Q := ⟨a.num * 10 ^ d, a.den, a.den_pos⟩

def Q.le (a b : Q) : Prop := a.num * b.den ≤ b.num * a.den

def Q.lt (a b : Q) : Prop := a.num * b.den < b.num * a.den

instance : LE Q := ⟨Q.le⟩

instance : LT Q := ⟨Q.lt⟩

instance (a b : Q) : Decidable (a ≤ b) := by
  unfold LE.le instLEQ Q.le; infer_instance

instance (a b : Q) : Decidable (a < b) := by
  unfold LT.lt instLTQ Q.lt; infer_instance

def Q.floor (a : Q) : ℤ := a.num.fdiv a.den

/-- Python `int(float)` truncates toward zero. -/
def Q.trunc (a : Q) : ℤ := a.num.tdiv a.den

/-- Whether the value is an integer. -/
def Q.isInt (a : Q) : Bool := a.num.emod a.den == 0

/-- The integer value (meaningful when `isInt`). -/
def Q.intVal (a : Q) : ℤ := a.num.fdiv a.den

def Q.isNeg (a : Q) : Bool := a.num < 0

/-- A Python number: `int` or `float`.  Threshold arguments given on the
command line are always floats (argparse `type=float`); omitted ones keep
their module-level default, whose Python type (int for memory/disk, float
for CPU) matters for f-string rendering in perfdata. -/
inductive PyNum where
  | int (n : ℤ)
  | float (q : Q)

/-- Numeric value of a `PyNum`, for threshold comparisons. -/
def PyNum.toQ : PyNum → Q
  | .int n => Q.ofInt n
  | .float q => q

/-- A JSON value as returned by `response.json()`.  JSON integers decode
to Python ints and are carried as `num` with denominator one. -/
inductive JVal where
  | null
  | bool (b : Bool)
  | num (q : Q)
  | str (s : String)
  | arr (elems : List JVal)
  | obj (fields : List (String × JVal))

/-- Python truthiness of a JSON value. -/
def JVal.truthy : JVal → Bool
  | .null => false
  | .bool b => b
  | .num q => !(q.num == 0)
  | .str s => !s.isEmpty
  | .arr l => !l.isEmpty
  | .obj f => !f.isEmpty

/-- Python `str.strip()` on a character list (whitespace both ends). -/
def stripChars (cs : List Char) : List Char :=
  ((cs.dropWhile Char.isWhitespace).reverse.dropWhile Char.isWhitespace).reverse

/-- Decimal value of a digit list. -/
def digitsVal (cs : List Char) : ℕ :=
  cs.foldl (fun a c => a * 10 + (c.toNat - 48)) 0

/-- Magnitude part of Python `float(str)`: digits with at most one decimal
point and at least one digit.  Exponent notation, `inf` and `nan` are
outside the model (they narrow only the successful-parse domain). -/
def parseMag (cs : List Char) : Option Q :=
  let ip := cs.takeWhile Char.isDigit
  let rest := cs.dropWhile Char.isDigit
  match rest with
  | [] => if ip.isEmpty then none else some (Q.ofInt (digitsVal ip))
  | '.' :: fp =>
    if (ip.isEmpty && fp.isEmpty) || !(fp.all Char.isDigit) then none
    else some ⟨(digitsVal ip : ℤ) * 10 ^ fp.length + (digitsVal fp : ℤ), 10 ^ fp.length,
      pow_pos (by decide) _⟩
  | _ => none

/-- Python `float(str)`: strip whitespace, optional sign, then magnitude. -/
def parseFloat (s : String) : Option Q :=
  match stripChars s.toList with
  | '+' :: rest => parseMag rest
  | '-' :: rest => (parseMag rest).map Q.neg
  | cs => parseMag cs

/-- Python `int(str)`: strip whitespace, optional sign, decimal digits only
(a decimal point raises `ValueError`). -/
def pyIntOfStr (s : String) : Option ℤ :=
  match stripChars s.toList with
  | '+' :: rest =>
    if rest.isEmpty || !(rest.all Char.isDigit) then none else some ((digitsVal rest : ℤ))
  | '-' :: rest =>
    if rest.isEmpty || !(rest.all Char.isDigit) then none else some (-(digitsVal rest : ℤ))
  | cs =>
    if cs.isEmpty || !(cs.all Char.isDigit) then none else some ((digitsVal cs : ℤ))

/-- Outcome of a Python expression inside a `try` body: a value, an
exception the surrounding `except` clause catches, or an uncaught
exception that crashes the interpreter. -/
inductive PyRes (α : Type) where
  | ok (a : α)
  | caught
  | crash

/-- Python `int(x)` in the memory block, whose handler catches only
`KeyError` and `ValueError`: an unparseable string is `caught`
(`ValueError`), while `None`, a list or a dict raise `TypeError`, which is
uncaught there (`crash`). -/
def pyInt : JVal → PyRes ℤ
  | .num q => .ok q.trunc
  | .bool b => .ok (if b then 1 else 0)
  | .str s =>
    match pyIntOfStr s with
    | some n => .ok n
    | none => .caught
  | _ => .crash

/-- Python `float(x)` in the disk block, whose handler catches `KeyError`,
`ValueError` and `TypeError`: every conversion failure is `none`. -/
def pyFloat : JVal → Option Q
  | .num q => some q
  | .bool b => some (if b then Q.ofInt 1 else Q.ofInt 0)
  | .str s => parseFloat s
  | _ => none

/-- Python subscript `x[k]` with a string key: `KeyError` (caught by the
memory handler) when the key is absent from a dict, `TypeError` (uncaught
there) when `x` is not a dict. -/
def pySubscript (j : JVal) (k : String) : PyRes JVal :=
  match j with
  | .obj fields =>
    match List.lookup k fields with
    | some v => .ok v
    | none => .caught
  | _ => .crash

/-- Python `x.get(k, default)`: only dicts have `.get`; anything else
raises `AttributeError`, which no handler in the script catches. -/
def pyDictGet (j : JVal) (k : String) (dflt : JVal) : Option JVal :=
  match j with
  | .obj fields => some ((List.lookup k fields).getD dflt)
  | _ => none

/-- Python iteration over a JSON value: lists yield elements, dicts yield
their keys, strings yield one-character strings; numbers, booleans and
`None` raise `TypeError` (uncaught in the disk section). -/
def iterElems : JVal → Option (List JVal)
  | .arr xs => some xs
  | .obj fields => some (fields.map (fun p => JVal.str p.1))
  | .str s => some (s.toList.map (fun c => JVal.str (String.mk [c])))
  | _ => none

/-- Left-pad with zeros to width `d`. -/
def padZeros (s : String) (d : ℕ) : String :=
  String.mk (List.replicate (d - s.length) '0') ++ s

/-- Round to the nearest integer, ties to even — the rounding of Python's
fixed-point float formatting. -/
def roundHalfEven (q : Q) : ℤ :=
  let f := q.floor
  let frac := q.sub (Q.ofInt f)
  if frac < (⟨1, 2, by decide⟩ : Q) then f
  else if (⟨1, 2, by decide⟩ : Q) < frac then f + 1
  else if f.emod 2 = 0 then f else f + 1

/-- Python `f"{x:.df}"`: fixed-point with exactly `d` fractional digits. -/
def fmtFixed (q : Q) (d : ℕ) : String :=
  let n := roundHalfEven (q.scale d)
  let sign := if q.isNeg then "-" else ""
  let m := n.natAbs
  if d = 0 then sign ++ toString m
  else sign ++ toString (m / 10 ^ d) ++ "." ++ padZeros (toString (m % 10 ^ d)) d

/-- Least exponent `e` (searched up to the fuel bound) making `q * 10 ^ e`
integral. -/
def decExpAux (q : Q) : ℕ → ℕ → ℕ
  | 0, e => e
  | fuel + 1, e => if (q.scale e).isInt then e else decExpAux q fuel (e + 1)

/-- Python `str`/`repr` of a float whose value is a (short) exact decimal:
minimal decimal digits, at least one fractional digit (`80.0`, `0.5`).
Scientific-notation rendering is outside the model. -/
def pyReprFloat (q : Q) : String :=
  let a : Q := ⟨if q.num < 0 then -q.num else q.num, q.den, q.den_pos⟩
  let e := max (decExpAux a 400 0) 1
  let m := (a.scale e).intVal.natAbs
  (if q.isNeg then "-" else "") ++ toString (m / 10 ^ e) ++ "." ++ padZeros (toString (m % 10 ^ e)) e

/-- Rendering of a number inside a Python f-string (`str(x)`). -/
def PyNum.fstr : PyNum → String
  | .int n => toString n
  | .float q => pyReprFloat q

/-- Join a list of strings with a separator (`sep.join(parts)`). -/
def joinWith (sep : String) : List String → String
  | [] => ""
  | [x] => x
  | x :: xs => x ++ sep ++ joinWith sep xs

/-- Run configuration: the six thresholds from `parse_args`.  argparse
applies `type=float` only to values given on the command line; an omitted
flag keeps the module-level default object, so `--mem-warn`, `--mem-crit`,
`--disk-warn`, `--disk-crit` default to Python ints and the CPU thresholds
to floats. -/
structure Config where
  cpu_warn : PyNum
  cpu_crit : PyNum
  mem_warn : PyNum
  mem_crit : PyNum
  disk_warn : PyNum
  disk_crit : PyNum

def DEFAULT_CPU_WARN : PyNum := .float (5 : Q)

def DEFAULT_CPU_CRIT : PyNum := .float (10 : Q)

def DEFAULT_MEM_WARN : PyNum := .int 75

def DEFAULT_MEM_CRIT : PyNum := .int 90

def DEFAULT_DISK_WARN : PyNum := .int 80

def DEFAULT_DISK_CRIT : PyNum := .int 95

/-- The configuration of a run that keeps every threshold default. -/
def defaultConfig : Config :=
  ⟨DEFAULT_CPU_WARN, DEFAULT_CPU_CRIT, DEFAULT_MEM_WARN, DEFAULT_MEM_CRIT,
   DEFAULT_DISK_WARN, DEFAULT_DISK_CRIT⟩

/-- `check_threshold(value, warn, crit)`: crit first, inclusive bounds. -/
def check_threshold (value warn crit : Q) : ℕ × String :=
  if crit ≤ value then (2, "CRITICAL")
  else if warn ≤ value then (1, "WARNING")
  else (0, "OK")

/-- `[float(x.strip()) for x in load_avg_str.split(',')]` — Python
`str.split` on a single comma; the split list is never empty. -/
def splitComma : List Char → List (List Char)
  | [] => [[]]
  | c :: rest =>
    if c = ',' then [] :: splitComma rest
    else
      match splitComma rest with
      | [] => [[c]]
      | g :: gs => (c :: g) :: gs

/-- The whole list comprehension is evaluated, so any bad element raises
`ValueError` even though only the first load is used afterwards. -/
def parseLoadList (s : String) : Option (List Q) :=
  let parts := (splitComma s.toList).map (fun cs => parseFloat (String.mk (stripChars cs)))
  if parts.all Option.isSome then some (parts.map (fun o => o.getD (0 : Q))) else none

/-- Per-metric contribution: severity, message fragments, perfdata
fragments, in emission order. -/
abbrev Contribution := ℕ × List String × List String

/-- The successful CPU branch: classify the 1-minute load and emit one
message and one perfdata fragment (trailing semicolon, no upper bound). -/
def cpuSuccess (cfg : Config) (v : Q) : Contribution :=
  let r := check_threshold v cfg.cpu_warn.toQ cfg.cpu_crit.toQ
  (r.1,
   ["CPU Load 1-min: " ++ fmtFixed v 2 ++ " (" ++ r.2 ++ ")"],
   ["'cpu_load_1min'=" ++ fmtFixed v 2 ++ ";" ++ cfg.cpu_warn.fstr ++ ";" ++
      cfg.cpu_crit.fstr ++ ";0.0;"])

/-- The CPU block (`try` around `sys_data.get('load_average', ...)`).
`none` is an uncaught exception: the handler lists only `KeyError`,
`IndexError` and `ValueError`, so a non-dict body or a non-string
`load_average` (`AttributeError` from `.split`) crashes the script.
A missing key silently falls back to the default string `'0.0,0.0,0.0'`. -/
def cpuBlock (cfg : Config) (sysData : JVal) : Option Contribution :=
  match pyDictGet sysData "load_average" (JVal.str "0.0,0.0,0.0") with
  | none => none
  | some la =>
    match la with
    | JVal.str s =>
      match parseLoadList s with
      | none => some (3, ["CPU Load data UNAVAILABLE"], [])
      | some loads =>
        match loads with
        | [] => some (3, ["CPU Load data UNAVAILABLE"], [])
        | v :: _ => some (cpuSuccess cfg v)
    | _ => none

/-- `int(sys_data['memory'][k])` as evaluated inside the memory `try`. -/
def getMemInt (sysData : JVal) (k : String) : PyRes ℤ :=
  match pySubscript sysData "memory" with
  | .crash => .crash
  | .caught => .caught
  | .ok memObj =>
    match pySubscript memObj k with
    | .crash => .crash
    | .caught => .caught
    | .ok v => pyInt v

/-- The successful memory branch: percentage, one message, three perfdata
fragments. -/
def memSuccess (cfg : Config) (total used : ℤ) : Contribution :=
  let pct := ((Q.ofInt used).div (Q.ofInt total)).mul (100 : Q)
  let r := check_threshold pct cfg.mem_warn.toQ cfg.mem_crit.toQ
  (r.1,
   ["Memory: " ++ fmtFixed pct 1 ++ "% (" ++ r.2 ++ ")"],
   ["'mem_usage_pct'=" ++ fmtFixed pct 1 ++ "%;" ++ cfg.mem_warn.fstr ++ ";" ++
      cfg.mem_crit.fstr ++ ";0;100",
    "'mem_used_bytes'=" ++ toString used ++ "B",
    "'mem_total_bytes'=" ++ toString total ++ "B"])

/-- The memory block: parse `total`, then `used`, then branch on
`total > 0`.  `caught` covers `KeyError`/`ValueError`; `crash` is a
`TypeError` from subscripting or converting the wrong shape. -/
def memBlock (cfg : Config) (sysData : JVal) : Option Contribution :=
  match getMemInt sysData "total" with
  | .crash => none
  | .caught => some (3, ["Memory data UNAVAILABLE"], [])
  | .ok total =>
    match getMemInt sysData "used" with
    | .crash => none
    | .caught => some (3, ["Memory data UNAVAILABLE"], [])
    | .ok used =>
      if 0 < total then some (memSuccess cfg total used)
      else some (3, ["Memory data UNAVAILABLE (Total=0)"], [])

/-- The fixed allow-list of primary mount points. -/
def PRIMARY_MOUNT_POINTS : List String := ["/", "/usr", "/var", "/home", "/cf", "/var/log"]

/-- Python `repr` of the `PRIMARY_MOUNT_POINTS` tuple, as interpolated into
the no-primary-filesystem message. -/
def PRIMARY_MOUNT_POINTS_REPR : String :=
  "('/', '/usr', '/var', '/home', '/cf', '/var/log')"

/-- `mountpoint.replace('/', '_').strip('_') or 'root'`. -/
def perfLabel (mp : String) : String :=
  let repl := mp.toList.map (fun c => if c = '/' then '_' else c)
  let stripped := ((repl.dropWhile (fun c => c = '_')).reverse.dropWhile (fun c => c = '_')).reverse
  if stripped.isEmpty then "root" else String.mk stripped

/-- Message of a successfully evaluated device. -/
def diskSuccessMsg (mp : String) (pct : Q) (lbl : String) : String :=
  "Disk " ++ mp ++ ": " ++ fmtFixed pct 1 ++ "% (" ++ lbl ++ ")"

/-- Perfdata fragment of a successfully evaluated device. -/
def diskSuccessPerf (cfg : Config) (mp : String) (pct : Q) : String :=
  "'disk_" ++ perfLabel mp ++ "_pct'=" ++ fmtFixed pct 1 ++ "%;" ++
    cfg.disk_warn.fstr ++ ";" ++ cfg.disk_crit.fstr ++ ";0;100"

/-- Message of a device whose `used_pct` failed to convert. -/
def diskErrMsg (mp : String) : String :=
  "Disk " ++ mp ++ " data UNKNOWN (Parsing error on 'used_pct')"

/-- The state threaded through the device loop: devices successfully
processed, severity accumulated by repeated `max`, message and perfdata
fragments in order. -/
structure DiskState where
  processed : ℕ
  sev : ℕ
  msgs : List String
  perfs : List String
deriving DecidableEq

def initDiskState : DiskState := ⟨0, 0, [], []⟩

/-- The `for fs in disk_data.get('devices', [])` loop.  `none` is an
uncaught exception (`fs.get` on a non-dict element).  A mount point
outside the allow-list — including a missing or non-string one, since
`x in tuple_of_strings` is then simply false — is skipped.  A conversion
failure of `used_pct` is caught per device and the loop continues. -/
def diskLoop (cfg : Config) : List JVal → DiskState → Option DiskState
  | [], st => some st
  | fs :: rest, st =>
    match fs with
    | JVal.obj fields =>
      match (List.lookup "mountpoint" fields).getD JVal.null with
      | JVal.str mp =>
        if PRIMARY_MOUNT_POINTS.contains mp then
          match pyFloat ((List.lookup "used_pct" fields).getD (JVal.num (0 : Q))) with
          | some pct =>
            let r := check_threshold pct cfg.disk_warn.toQ cfg.disk_crit.toQ
            diskLoop cfg rest ⟨st.processed + 1, max st.sev r.1,
              st.msgs ++ [diskSuccessMsg mp pct r.2], st.perfs ++ [diskSuccessPerf cfg mp pct]⟩
          | none =>
            diskLoop cfg rest ⟨st.processed, max st.sev 3, st.msgs ++ [diskErrMsg mp], st.perfs⟩
        else diskLoop cfg rest st
      | _ => diskLoop cfg rest st
    | _ => none

/-- Whether a string starts with the given prefix. -/
def strHasPre (p s : String) : Bool :=
  List.isPrefixOf p.toList s.toList

/-- `mountpoint.startswith(('/dev', '/proc', '/tmp', '/var/run'))`. -/
def isPseudoMount (s : String) : Bool :=
  strHasPre "/dev" s || strHasPre "/proc" s || strHasPre "/tmp" s || strHasPre "/var/run" s

/-- The diagnostic list comprehension run when no device was processed:
keep truthy, non-pseudo mount points.  `none` is an uncaught exception
(`.get` on a non-dict element, or `.startswith` on a truthy non-string). -/
def availableMounts : List JVal → Option (List String)
  | [] => some []
  | fs :: rest =>
    match fs with
    | JVal.obj fields =>
      match (List.lookup "mountpoint" fields).getD JVal.null with
      | JVal.str s =>
        if s.isEmpty then availableMounts rest
        else if isPseudoMount s then availableMounts rest
        else (availableMounts rest).map (fun l => s :: l)
      | v => if v.truthy then none else availableMounts rest
    | _ => none

/-- `", ".join(all_api_mounts) if all_api_mounts else "None"`. -/
def mountListStr (am : List String) : String :=
  if am.isEmpty then "None" else joinWith ", " am

/-- The dedicated no-primary-filesystem message. -/
def noPrimaryMsg (am : List String) : String :=
  "Disk check UNKNOWN: No primary filesystem found (" ++ PRIMARY_MOUNT_POINTS_REPR ++
    "). Available mounts: [" ++ mountListStr am ++ "]"

/-- The disk block: iterate the devices, then, when zero devices were
processed, append the diagnostic UNKNOWN message. -/
def diskBlock (cfg : Config) (diskData : JVal) : Option Contribution :=
  match pyDictGet diskData "devices" (JVal.arr []) with
  | none => none
  | some dv =>
    match iterElems dv with
    | none => none
    | some fss =>
      match diskLoop cfg fss initDiskState with
      | none => none
      | some st =>
        if st.processed = 0 then
          match availableMounts fss with
          | none => none
          | some am => some (max st.sev 3, st.msgs ++ [noPrimaryMsg am], st.perfs)
        else some (st.sev, st.msgs, st.perfs)

def API_SYSTEM_RESOURCES : String := "/api/diagnostics/system/system_resources"

def API_SYSTEM_DISK : String := "/api/diagnostics/system/system_disk"

/-- Transport-level outcome of one HTTP request, the input `make_api_call`
reacts to: a timeout, another `RequestException` (connection failure or a
non-2xx status raised by `raise_for_status`, rendered as `str(e)`), a body
that is not JSON, any other exception, or a decoded JSON body. -/
inductive ApiOutcome where
  | timeout
  | netError (msg : String)
  | badJson (text : String)
  | otherError (msg : String)
  | success (body : JVal)

def ApiOutcome.isFailure : ApiOutcome → Bool
  | .success _ => false
  | _ => true

/-- `make_api_call`: on success the decoded body; on any failure the
printed `UNKNOWN - ...` line together with the hardcoded `sys.exit(3)`
code.  There is no retry. -/
def makeApiCall (endpoint : String) (out : ApiOutcome) : Except (ℕ × String) JVal :=
  match out with
  | .timeout => .error (3, "UNKNOWN - API call timed out after 15 seconds for " ++ endpoint ++
      ". Check network connectivity and OPNsense load.")
  | .netError m => .error (3, "UNKNOWN - API call failed to " ++ endpoint ++ ": " ++ m)
  | .badJson t => .error (3, "UNKNOWN - Failed to decode JSON response from " ++ endpoint ++
      ": " ++ String.mk (t.toList.take 100) ++ "... Is the API key/secret correct?")
  | .otherError m => .error (3, "UNKNOWN - An unexpected error occurred during API call to " ++
      endpoint ++ ": " ++ m)
  | .success j => .ok j

/-- The aggregate state of `main`: overall severity and the two fragment
lists. -/
structure RunState where
  overall : ℕ
  messages : List String
  perfdata : List String

/-- Fold one metric block into the aggregate state: severity by `max`,
fragments appended in order. -/
def applyBlock (st : RunState) (c : Contribution) : RunState :=
  ⟨max st.overall c.1, st.messages ++ c.2.1, st.perfdata ++ c.2.2⟩

/-- `STATUS_MAP.get(overall_status, "UNKNOWN")`. -/
def STATUS_MAP (n : ℕ) : String :=
  if n = 0 then "OK"
  else if n = 1 then "WARNING"
  else if n = 2 then "CRITICAL"
  else if n = 3 then "UNKNOWN"
  else "UNKNOWN"

/-- How a run of `main` ends: the final report line printed together with
`sys.exit(overall_status)`, an early `UNKNOWN` line printed by
`make_api_call` with `sys.exit(3)`, or an uncaught exception (traceback). -/
inductive RunResult where
  | report (exitCode : ℕ) (line : String)
  | apiFailure (exitCode : ℕ) (line : String)
  | crash

/-- The final print: messages joined by `" | "`, a `" | "` separator, then
perfdata joined by spaces. -/
def finalize (st : RunState) : RunResult :=
  .report st.overall (STATUS_MAP st.overall ++ " - " ++ joinWith " | " st.messages ++
    " | " ++ joinWith " " st.perfdata)

/-- `main` after argument parsing, as a function of the two transport
outcomes: resources call, CPU block, memory block, disk call, disk block,
final output. -/
def runChecks (cfg : Config) (sysOut diskOut : ApiOutcome) : RunResult :=
  match makeApiCall API_SYSTEM_RESOURCES sysOut with
  | .error e => .apiFailure e.1 e.2
  | .ok sysData =>
    match cpuBlock cfg sysData with
    | none => .crash
    | some c1 =>
      match memBlock cfg sysData with
      | none => .crash
      | some c2 =>
        match makeApiCall API_SYSTEM_DISK diskOut with
        | .error e => .apiFailure e.1 e.2
        | .ok diskData =>
          match diskBlock cfg diskData with
          | none => .crash
          | some c3 =>
            finalize (applyBlock (applyBlock (applyBlock ⟨0, [], []⟩ c1) c2) c3)

/-- The per-metric severities of a run in which every block completes, in
evaluation order (CPU, memory, disk). -/
def metricSeverities (cfg : Config) (sysData diskData : JVal) : Option (List ℕ) :=
  match cpuBlock cfg sysData, memBlock cfg sysData, diskBlock cfg diskData with
  | some c1, some c2, some c3 => some [c1.1, c2.1, c3.1]
  | _, _, _ => none

/-- The exit code of a run, when it terminates via `sys.exit`. -/
def exitCodeOf : RunResult → Option ℕ
  | .report c _ => some c
  | .apiFailure c _ => some c
  | .crash => none

/-! ### Helper lemmas -/

theorem check_threshold_fst_le (v w c : Q) : (check_threshold v w c).1 ≤ 2 := by
  unfold check_threshold
  split_ifs <;> simp

theorem diskLoop_sev_mono (cfg : Config) :
    ∀ (dvs : List JVal) (st st' : DiskState),
      diskLoop cfg dvs st = some st' → st.sev ≤ st'.sev := by
  intro dvs
  induction dvs with
  | nil =>
    intro st st' h
    simp only [diskLoop, Option.some.injEq] at h
    subst h
    exact le_refl _
  | cons fs rest ih =>
    intro st st' h
    cases fs with
    | obj fields =>
      simp only [diskLoop] at h
      split at h
      · split at h
        · split at h
          · have := ih _ _ h
            simp only at this
            omega
          · have := ih _ _ h
            simp only at this
            omega
        · exact ih _ _ h
      · exact ih _ _ h
    | null => simp [diskLoop] at h
    | bool b => simp [diskLoop] at h
    | num q => simp [diskLoop] at h
    | str s => simp [diskLoop] at h
    | arr l => simp [diskLoop] at h

theorem diskLoop_sev_le (cfg : Config) :
    ∀ (dvs : List JVal) (st st' : DiskState),
      diskLoop cfg dvs st = some st' → st'.sev ≤ max st.sev 3 := by
  intro dvs
  induction dvs with
  | nil =>
    intro st st' h
    simp only [diskLoop, Option.some.injEq] at h
    subst h
    omega
  | cons fs rest ih =>
    intro st st' h
    cases fs with
    | obj fields =>
      simp only [diskLoop] at h
      split at h
      · split at h
        · split at h
          · rename_i pct _
            have h1 := ih _ _ h
            have h2 := check_threshold_fst_le pct cfg.disk_warn.toQ cfg.disk_crit.toQ
            simp only at h1
            omega
          · have h1 := ih _ _ h
            simp only at h1
            omega
        · exact ih _ _ h
      · exact ih _ _ h
    | null => simp [diskLoop] at h
    | bool b => simp [diskLoop] at h
    | num q => simp [diskLoop] at h
    | str s => simp [diskLoop] at h
    | arr l => simp [diskLoop] at h

/-- Once a device inside the list fails to convert `used_pct`, the final
loop severity is exactly `3` (starting from severity at most `3`). -/
theorem diskLoop_parse_fail_sev (cfg : Config) :
    ∀ (pre : List JVal) (fields : List (String × JVal)) (post : List JVal)
      (mp : String) (st st' : DiskState),
      List.lookup "mountpoint" fields = some (JVal.str mp) →
      PRIMARY_MOUNT_POINTS.contains mp = true →
      pyFloat ((List.lookup "used_pct" fields).getD (JVal.num (0 : Q))) = none →
      st.sev ≤ 3 →
      diskLoop cfg (pre ++ JVal.obj fields :: post) st = some st' →
      st'.sev = 3 := by
  intro pre
  induction pre with
  | nil =>
    intro fields post mp st st' hmp hin hpf hle h
    simp only [List.nil_append, diskLoop, hmp, Option.getD_some, hin, hpf, if_true] at h
    have h1 := diskLoop_sev_mono cfg _ _ _ h
    have h2 := diskLoop_sev_le cfg _ _ _ h
    simp only at h1 h2
    omega
  | cons fs pre' ih =>
    intro fields post mp st st' hmp hin hpf hle h
    cases fs with
    | obj f2 =>
      simp only [List.cons_append, diskLoop] at h
      split at h
      · split at h
        · split at h
          · rename_i pct _
            refine ih _ _ _ _ _ hmp hin hpf ?_ h
            have h2 := check_threshold_fst_le pct cfg.disk_warn.toQ cfg.disk_crit.toQ
            simp only
            omega
          · refine ih _ _ _ _ _ hmp hin hpf ?_ h
            simp only
            omega
        · exact ih _ _ _ _ _ hmp hin hpf hle h
      · exact ih _ _ _ _ _ hmp hin hpf hle h
    | null => simp [List.cons_append, diskLoop] at h
    | bool b => simp [List.cons_append, diskLoop] at h
    | num q => simp [List.cons_append, diskLoop] at h
    | str s => simp [List.cons_append, diskLoop] at h
    | arr l => simp [List.cons_append, diskLoop] at h

theorem cpuBlock_sev_le (cfg : Config) (sysData : JVal) (c : Contribution)
    (h : cpuBlock cfg sysData = some c) : c.1 ≤ 3 := by
  unfold cpuBlock at h
  split at h
  · exact absurd h (by simp)
  · split at h
    · split at h
      · simp only [Option.some.injEq] at h
        subst h
        simp
      · split at h
        · simp only [Option.some.injEq] at h
          subst h
          simp
        · simp only [Option.some.injEq] at h
          subst h
          exact check_threshold_fst_le _ _ _ |>.trans (by omega)
    · exact absurd h (by simp)

theorem memBlock_sev_le (cfg : Config) (sysData : JVal) (c : Contribution)
    (h : memBlock cfg sysData = some c) : c.1 ≤ 3 := by
  unfold memBlock at h
  split at h
  · exact absurd h (by simp)
  · simp only [Option.some.injEq] at h
    subst h
    simp
  · split at h
    · exact absurd h (by simp)
    · simp only [Option.some.injEq] at h
      subst h
      simp
    · split at h <;> simp only [Option.some.injEq] at h <;> subst h
      · exact check_threshold_fst_le _ _ _ |>.trans (by omega)
      · simp

theorem diskBlock_sev_le (cfg : Config) (diskData : JVal) (c : Contribution)
    (h : diskBlock cfg diskData = some c) : c.1 ≤ 3 := by
  unfold diskBlock at h
  split at h
  · exact absurd h (by simp)
  · split at h
    · exact absurd h (by simp)
    · split at h
      · exact absurd h (by simp)
      · rename_i st hloop
        have hle := diskLoop_sev_le cfg _ _ _ hloop
        simp only [initDiskState] at hle
        split at h
        · split at h
          · exact absurd h (by simp)
          · simp only [Option.some.injEq] at h
            subst h
            simp only
            omega
        · simp only [Option.some.injEq] at h
          subst h
          simp only
          omega

/-! ### Claim theorems -/

/-- C1: the threshold classifier returns `(2, "CRITICAL")` exactly when
`value >= crit` (the crit comparison wins even when `value >= warn`),
otherwise `(1, "WARNING")` exactly when `value >= warn`, otherwise
`(0, "OK")`; boundaries inclusive, total over all numeric inputs. -/
theorem check_threshold_classification (v w c : Q) :
    (check_threshold v w c = (2, "CRITICAL") ↔ c ≤ v) ∧
    (check_threshold v w c = (1, "WARNING") ↔ ¬c ≤ v ∧ w ≤ v) ∧
    (check_threshold v w c = (0, "OK") ↔ ¬c ≤ v ∧ ¬w ≤ v) := by
  unfold check_threshold
  by_cases h1 : c ≤ v <;> by_cases h2 : w ≤ v <;> simp [h1, h2]

theorem strAppend_assoc (a b c : String) : a ++ b ++ c = a ++ (b ++ c) := by
  rcases a with ⟨da⟩
  rcases b with ⟨db⟩
  rcases c with ⟨dc⟩
  show String.mk (da ++ db ++ dc) = String.mk (da ++ (db ++ dc))
  rw [List.append_assoc]

/-- C2: when every metric block completes, the run prints a report whose
exit code is the maximum of the per-metric severities starting from `0`
and whose status text matches that code; a CPU or memory extraction
failure (recognizable by its empty perfdata) contributes severity `3`, as
does any per-device `used_pct` conversion failure inside the disk loop. -/
theorem overall_severity_eq_max (cfg : Config) (sysData diskData : JVal) (sevs : List ℕ)
    (h : metricSeverities cfg sysData diskData = some sevs) :
    (∃ rest, runChecks cfg (ApiOutcome.success sysData) (ApiOutcome.success diskData) =
        RunResult.report (sevs.foldl max 0) (STATUS_MAP (sevs.foldl max 0) ++ " - " ++ rest)) ∧
    (∀ co, cpuBlock cfg sysData = some co → co.2.2 = [] → co.1 = 3) ∧
    (∀ co, memBlock cfg sysData = some co → co.2.2 = [] → co.1 = 3) ∧
    (∀ (pre : List JVal) (fields : List (String × JVal)) (post : List JVal)
       (mp : String) (st' : DiskState),
       List.lookup "mountpoint" fields = some (JVal.str mp) →
       PRIMARY_MOUNT_POINTS.contains mp = true →
       pyFloat ((List.lookup "used_pct" fields).getD (JVal.num (0 : Q))) = none →
       diskLoop cfg (pre ++ JVal.obj fields :: post) initDiskState = some st' →
       st'.sev = 3) := by
  refine ⟨?_, ?_, ?_, ?_⟩
  · unfold metricSeverities at h
    split at h
    · rename_i c1 c2 c3 hc1 hc2 hc3
      simp only [Option.some.injEq] at h
      subst h
      refine ⟨joinWith " | " (c1.2.1 ++ (c2.2.1 ++ c3.2.1)) ++
        (" | " ++ joinWith " " (c1.2.2 ++ (c2.2.2 ++ c3.2.2))), ?_⟩
      simp only [runChecks, makeApiCall, hc1, hc2, hc3, finalize, applyBlock,
        List.foldl, List.nil_append, strAppend_assoc, List.append_assoc]
    · exact absurd h (by simp)
  · intro co hco hperf
    unfold cpuBlock at hco
    split at hco
    · exact absurd hco (by simp)
    · split at hco
      · split at hco
        · simp only [Option.some.injEq] at hco
          subst hco
          rfl
        · split at hco
          · simp only [Option.some.injEq] at hco
            subst hco
            rfl
          · simp only [Option.some.injEq] at hco
            subst hco
            simp [cpuSuccess] at hperf
      · exact absurd hco (by simp)
  · intro co hco hperf
    unfold memBlock at hco
    split at hco
    · exact absurd hco (by simp)
    · simp only [Option.some.injEq] at hco
      subst hco
      rfl
    · split at hco
      · exact absurd hco (by simp)
      · simp only [Option.some.injEq] at hco
        subst hco
        rfl
      · split at hco <;> simp only [Option.some.injEq] at hco <;> subst hco
        · simp [memSuccess] at hperf
        · rfl
  · intro pre fields post mp st' hmp hin hpf hloop
    exact diskLoop_parse_fail_sev cfg pre fields post mp initDiskState st' hmp hin hpf
      (by simp [initDiskState]) hloop

theorem isPrefixOf_append_right (p s t : List Char) (h : p.isPrefixOf s = true) :
    p.isPrefixOf (s ++ t) = true := by
  induction p generalizing s with
  | nil => simp [List.isPrefixOf]
  | cons a as ih =>
    cases s with
    | nil => simp [List.isPrefixOf] at h
    | cons b bs =>
      simp only [List.cons_append, List.isPrefixOf, Bool.and_eq_true] at h ⊢
      exact ⟨h.1, ih bs h.2⟩

theorem strHasPre_append (p s t : String) (h : strHasPre p s = true) :
    strHasPre p (s ++ t) = true := by
  rcases s with ⟨ds⟩
  rcases t with ⟨dt⟩
  unfold strHasPre at h ⊢
  exact isPrefixOf_append_right _ _ _ h

/-- System-resources body used by concrete witnesses: a healthy load and a
memory at 95%. -/
def sysOkData : JVal :=
  JVal.obj [("load_average", JVal.str "3.00, 1.00, 0.50"),
    ("memory", JVal.obj [("total", JVal.num (1000 : Q)), ("used", JVal.num (950 : Q))])]

/-- System-disk body used by concrete witnesses: one root device at 85%. -/
def diskOkData : JVal :=
  JVal.obj [("devices", JVal.arr
    [JVal.obj [("mountpoint", JVal.str "/"), ("used_pct", JVal.str "85")]])]

/-- Witness for C2 at a concrete run (severities 0, 2, 1 — overall 2). -/
theorem overall_severity_eq_max_witness :
    ∃ rest, runChecks defaultConfig (ApiOutcome.success sysOkData) (ApiOutcome.success diskOkData) =
      RunResult.report 2 (STATUS_MAP 2 ++ " - " ++ rest) := by
  exact (overall_severity_eq_max defaultConfig sysOkData diskOkData [0, 2, 1] (by decide)).1

/-- C3 counterexample: with `load_average` entirely missing the CPU metric
does **not** degrade to UNKNOWN — the `.get` default string parses to load
0.0, which is classified normally (severity 0) and emits perfdata. -/
theorem cpu_missing_key_counterexample :
    cpuBlock defaultConfig (JVal.obj []) =
      some (0, ["CPU Load 1-min: 0.00 (OK)"], ["'cpu_load_1min'=0.00;5.0;10.0;0.0;"]) ∧
    cpuBlock defaultConfig (JVal.obj []) ≠ some (3, ["CPU Load data UNAVAILABLE"], []) := by
  exact ⟨by decide, by decide⟩

/-- C3 (amended): a missing `load_average` key behaves exactly as if the
key held the default string `'0.0,0.0,0.0'` (load 0.00, classified
normally — OK at the default thresholds — with perfdata); a present string
that fails float parsing degrades the metric to severity 3 with message
"CPU Load data UNAVAILABLE" and no perfdata; a present non-string value
crashes the script (uncaught `AttributeError` from `.split`). -/
theorem cpu_load_average_degradation (cfg : Config) (fields : List (String × JVal)) :
    (List.lookup "load_average" fields = none →
      cpuBlock cfg (JVal.obj fields) =
        cpuBlock cfg (JVal.obj (("load_average", JVal.str "0.0,0.0,0.0") :: fields))) ∧
    (∀ s, List.lookup "load_average" fields = some (JVal.str s) → parseLoadList s = none →
      cpuBlock cfg (JVal.obj fields) = some (3, ["CPU Load data UNAVAILABLE"], [])) ∧
    (∀ q, List.lookup "load_average" fields = some (JVal.num q) →
      cpuBlock cfg (JVal.obj fields) = none) ∧
    cpuBlock defaultConfig (JVal.obj []) =
      some (0, ["CPU Load 1-min: 0.00 (OK)"], ["'cpu_load_1min'=0.00;5.0;10.0;0.0;"]) := by
  refine ⟨?_, ?_, ?_, by decide⟩
  · intro h
    simp [cpuBlock, pyDictGet, h, List.lookup]
  · intro s hs hp
    simp [cpuBlock, pyDictGet, hs, hp]
  · intro q hq
    simp [cpuBlock, pyDictGet, hq]

theorem cpu_load_average_degradation_witness :
    cpuBlock defaultConfig (JVal.obj [("load_average", JVal.str "not a load")]) =
      some (3, ["CPU Load data UNAVAILABLE"], []) := by
  exact (cpu_load_average_degradation defaultConfig
    [("load_average", JVal.str "not a load")]).2.1 "not a load" rfl rfl

/-- C4: a transport-level failure of the first API call makes the run
print a single line starting `UNKNOWN - ` and exit 3, independently of
whatever the second call would have returned (no partial evaluation); a
failure of the second call does the same after the CPU and memory blocks;
a timeout names the endpoint and the 15-second timeout. -/
theorem api_failure_aborts_run (cfg : Config) (out d d2 : ApiOutcome) (sysData : JVal)
    (c1 c2 : Contribution) :
    (out.isFailure = true →
      runChecks cfg out d = runChecks cfg out d2 ∧
      ∃ line, runChecks cfg out d = RunResult.apiFailure 3 line ∧
        strHasPre "UNKNOWN - " line = true) ∧
    (cpuBlock cfg sysData = some c1 → memBlock cfg sysData = some c2 →
      out.isFailure = true →
      ∃ line, runChecks cfg (ApiOutcome.success sysData) out = RunResult.apiFailure 3 line ∧
        strHasPre "UNKNOWN - " line = true) ∧
    runChecks cfg ApiOutcome.timeout d =
      RunResult.apiFailure 3 ("UNKNOWN - API call timed out after 15 seconds for " ++
        API_SYSTEM_RESOURCES ++ ". Check network connectivity and OPNsense load.") := by
  refine ⟨?_, ?_, rfl⟩
  · intro hf
    cases out with
    | success b => simp [ApiOutcome.isFailure] at hf
    | timeout => exact ⟨rfl, _, rfl, by decide⟩
    | netError m =>
      refine ⟨rfl, _, rfl, ?_⟩
      exact strHasPre_append _ _ _ (by decide)
    | badJson t =>
      refine ⟨rfl, _, rfl, ?_⟩
      exact strHasPre_append _ _ _ (strHasPre_append _ _ _ (by decide))
    | otherError m =>
      refine ⟨rfl, _, rfl, ?_⟩
      exact strHasPre_append _ _ _ (by decide)
  · intro hc1 hc2 hf
    cases out with
    | success b => simp [ApiOutcome.isFailure] at hf
    | timeout =>
      simp only [runChecks, makeApiCall, hc1, hc2]
      exact ⟨_, rfl, by decide⟩
    | netError m =>
      simp only [runChecks, makeApiCall, hc1, hc2]
      exact ⟨_, rfl, strHasPre_append _ _ _ (by decide)⟩
    | badJson t =>
      simp only [runChecks, makeApiCall, hc1, hc2]
      exact ⟨_, rfl, strHasPre_append _ _ _ (strHasPre_append _ _ _ (by decide))⟩
    | otherError m =>
      simp only [runChecks, makeApiCall, hc1, hc2]
      exact ⟨_, rfl, strHasPre_append _ _ _ (by decide)⟩

theorem api_failure_aborts_run_witness :
    runChecks defaultConfig (ApiOutcome.netError "connection refused") ApiOutcome.timeout =
      runChecks defaultConfig (ApiOutcome.netError "connection refused")
        (ApiOutcome.success diskOkData) ∧
    (∃ line, runChecks defaultConfig (ApiOutcome.success sysOkData)
        (ApiOutcome.netError "connection refused") = RunResult.apiFailure 3 line ∧
      strHasPre "UNKNOWN - " line = true) := by
  refine ⟨?_, ?_⟩
  · exact ((api_failure_aborts_run defaultConfig (ApiOutcome.netError "connection refused")
      ApiOutcome.timeout (ApiOutcome.success diskOkData) sysOkData
      (0, [], []) (0, [], [])).1 rfl).1
  · exact (api_failure_aborts_run defaultConfig (ApiOutcome.netError "connection refused")
      ApiOutcome.timeout ApiOutcome.timeout sysOkData
      (0, ["CPU Load 1-min: 3.00 (OK)"], ["'cpu_load_1min'=3.00;5.0;10.0;0.0;"])
      (2, ["Memory: 95.0% (CRITICAL)"],
        ["'mem_usage_pct'=95.0%;75;90;0;100", "'mem_used_bytes'=950B",
         "'mem_total_bytes'=1000B"])).2.1 (by decide) (by decide) rfl

/-- C5 counterexample: `memory.total` present and zero, but `memory.used`
missing — the code raises `KeyError` on `used` before reaching the
`total > 0` test, so the generic message is emitted, not the
`(Total=0)`-specific one the claim promises for every such response. -/
theorem mem_total_zero_counterexample :
    memBlock defaultConfig (JVal.obj [("memory", JVal.obj [("total", JVal.num (0 : Q))])]) =
      some (3, ["Memory data UNAVAILABLE"], []) ∧
    memBlock defaultConfig (JVal.obj [("memory", JVal.obj [("total", JVal.num (0 : Q))])]) ≠
      some (3, ["Memory data UNAVAILABLE (Total=0)"], []) := by
  exact ⟨by decide, by decide⟩

/-- C5 (amended): when `memory.total` parses to 0 **and** `memory.used`
also parses as an integer, the memory metric is UNKNOWN with exactly the
message "Memory data UNAVAILABLE (Total=0)" and no perfdata, and any run
reaching the final report exits with code 3. -/
theorem mem_total_zero_message (cfg : Config) (sysData diskData : JVal) (u : ℤ)
    (ht : getMemInt sysData "total" = PyRes.ok 0)
    (hu : getMemInt sysData "used" = PyRes.ok u) :
    memBlock cfg sysData = some (3, ["Memory data UNAVAILABLE (Total=0)"], []) ∧
    (∀ c1 c3 code line, cpuBlock cfg sysData = some c1 → diskBlock cfg diskData = some c3 →
      runChecks cfg (ApiOutcome.success sysData) (ApiOutcome.success diskData) =
        RunResult.report code line → code = 3) := by
  have hmem : memBlock cfg sysData = some (3, ["Memory data UNAVAILABLE (Total=0)"], []) := by
    simp [memBlock, ht, hu]
  refine ⟨hmem, ?_⟩
  intro c1 c3 code line hc1 hc3 hrun
  have hb1 := cpuBlock_sev_le cfg sysData c1 hc1
  have hb3 := diskBlock_sev_le cfg diskData c3 hc3
  simp only [runChecks, makeApiCall, hc1, hmem, hc3, finalize, applyBlock,
    RunResult.report.injEq] at hrun
  omega

theorem mem_total_zero_message_witness :
    memBlock defaultConfig
      (JVal.obj [("memory", JVal.obj [("total", JVal.num (0 : Q)), ("used", JVal.num (100 : Q))])]) =
      some (3, ["Memory data UNAVAILABLE (Total=0)"], []) := by
  exact (mem_total_zero_message defaultConfig
    (JVal.obj [("memory", JVal.obj [("total", JVal.num (0 : Q)), ("used", JVal.num (100 : Q))])])
    diskOkData 100 rfl rfl).1

/-- C6: with integer `memory.total > 0` and integer `memory.used`, the
memory block computes `used/total*100`, classifies it against the memory
thresholds, and emits the "Memory: <pct>% (<LABEL>)" message together with
exactly three perfdata fragments (percentage with warn/crit/0/100 bounds,
used bytes, total bytes). -/
theorem mem_success_eval (cfg : Config) (sysData : JVal) (t u : ℤ)
    (ht : getMemInt sysData "total" = PyRes.ok t)
    (hu : getMemInt sysData "used" = PyRes.ok u)
    (hpos : 0 < t) :
    memBlock cfg sysData =
      some ((check_threshold (((Q.ofInt u).div (Q.ofInt t)).mul (100 : Q))
              cfg.mem_warn.toQ cfg.mem_crit.toQ).1,
        ["Memory: " ++ fmtFixed (((Q.ofInt u).div (Q.ofInt t)).mul (100 : Q)) 1 ++ "% (" ++
           (check_threshold (((Q.ofInt u).div (Q.ofInt t)).mul (100 : Q))
              cfg.mem_warn.toQ cfg.mem_crit.toQ).2 ++ ")"],
        ["'mem_usage_pct'=" ++ fmtFixed (((Q.ofInt u).div (Q.ofInt t)).mul (100 : Q)) 1 ++
           "%;" ++ cfg.mem_warn.fstr ++ ";" ++ cfg.mem_crit.fstr ++ ";0;100",
         "'mem_used_bytes'=" ++ toString u ++ "B",
         "'mem_total_bytes'=" ++ toString t ++ "B"]) := by
  simp [memBlock, ht, hu, hpos, memSuccess]

/-- Witness for C6 — the spec scenario total=1000, used=950, warn=75,
crit=90: 95.0% CRITICAL. -/
theorem mem_success_eval_witness :
    memBlock defaultConfig sysOkData =
      some (2, ["Memory: 95.0% (CRITICAL)"],
        ["'mem_usage_pct'=95.0%;75;90;0;100", "'mem_used_bytes'=950B",
         "'mem_total_bytes'=1000B"]) := by
  exact (mem_success_eval defaultConfig sysOkData 1000 950 rfl rfl (by decide)).trans (by decide)

/-- C7: only allow-listed mount points are evaluated — a device whose
mount point is a string outside the allow-list leaves the loop state
untouched; a retained device has `used_pct` converted to a float,
classified against the disk thresholds, and reported under the label
derived by `/`→`_` replacement and underscore stripping (`root` for `/`);
the spec scenario (`/` at 85% with the default warn=80/crit=95) yields
WARNING and the exact fragment `'disk_root_pct'=85.0%;80;95;0;100`. -/
theorem disk_allowlist_and_labels (cfg : Config) (st : DiskState)
    (fields : List (String × JVal)) (rest : List JVal) (mp : String) :
    (List.lookup "mountpoint" fields = some (JVal.str mp) →
      mp ∉ PRIMARY_MOUNT_POINTS →
      diskLoop cfg (JVal.obj fields :: rest) st = diskLoop cfg rest st) ∧
    (∀ pct, List.lookup "mountpoint" fields = some (JVal.str mp) →
      mp ∈ PRIMARY_MOUNT_POINTS →
      pyFloat ((List.lookup "used_pct" fields).getD (JVal.num (0 : Q))) = some pct →
      diskLoop cfg (JVal.obj fields :: rest) st =
        diskLoop cfg rest ⟨st.processed + 1,
          max st.sev (check_threshold pct cfg.disk_warn.toQ cfg.disk_crit.toQ).1,
          st.msgs ++ [diskSuccessMsg mp pct
            (check_threshold pct cfg.disk_warn.toQ cfg.disk_crit.toQ).2],
          st.perfs ++ [diskSuccessPerf cfg mp pct]⟩) ∧
    (perfLabel "/" = "root" ∧ perfLabel "/var/log" = "var_log") ∧
    diskBlock defaultConfig diskOkData =
      some (1, ["Disk /: 85.0% (WARNING)"], ["'disk_root_pct'=85.0%;80;95;0;100"]) := by
  refine ⟨?_, ?_, ⟨by decide, by decide⟩, by decide⟩
  · intro hmp hout
    simp [diskLoop, hmp, hout]
  · intro pct hmp hin hpf
    simp [diskLoop, hmp, hin, hpf]

theorem disk_allowlist_and_labels_witness :
    diskLoop defaultConfig
      [JVal.obj [("mountpoint", JVal.str "/"), ("used_pct", JVal.str "85")],
       JVal.obj [("mountpoint", JVal.str "/boot"), ("used_pct", JVal.str "99")]]
      initDiskState =
      some ⟨1, 1, ["Disk /: 85.0% (WARNING)"], ["'disk_root_pct'=85.0%;80;95;0;100"]⟩ := by
  have h := (disk_allowlist_and_labels defaultConfig initDiskState
    [("mountpoint", JVal.str "/"), ("used_pct", JVal.str "85")]
    [JVal.obj [("mountpoint", JVal.str "/boot"), ("used_pct", JVal.str "99")]] "/").2.1
    (Q.ofInt 85) rfl (by decide) rfl
  exact h.trans (by decide)

/-- C8: a primary-mount device whose `used_pct` fails float conversion
appends "Disk <mountpoint> data UNKNOWN (Parsing error on 'used_pct')",
raises the severity to 3 (by `max`), does not count as processed, and the
loop continues with the remaining devices; a loop from the initial state
containing such a device always ends at severity exactly 3. -/
theorem disk_parse_error_continues (cfg : Config) (st : DiskState)
    (fields : List (String × JVal)) (rest : List JVal) (mp : String)
    (hmp : List.lookup "mountpoint" fields = some (JVal.str mp))
    (hin : mp ∈ PRIMARY_MOUNT_POINTS)
    (hpf : pyFloat ((List.lookup "used_pct" fields).getD (JVal.num (0 : Q))) = none) :
    diskLoop cfg (JVal.obj fields :: rest) st =
      diskLoop cfg rest ⟨st.processed, max st.sev 3, st.msgs ++ [diskErrMsg mp], st.perfs⟩ ∧
    (∀ st', diskLoop cfg (JVal.obj fields :: rest) initDiskState = some st' →
      st'.sev = 3) := by
  refine ⟨?_, ?_⟩
  · simp [diskLoop, hmp, hin, hpf]
  · intro st' h
    exact diskLoop_parse_fail_sev cfg [] fields rest mp initDiskState st' hmp
      (by simp [hin]) hpf (by simp [initDiskState]) h

theorem disk_parse_error_continues_witness :
    diskLoop defaultConfig
      [JVal.obj [("mountpoint", JVal.str "/"), ("used_pct", JVal.null)],
       JVal.obj [("mountpoint", JVal.str "/var"), ("used_pct", JVal.str "40")]]
      initDiskState =
      some ⟨1, 3, [diskErrMsg "/", "Disk /var: 40.0% (OK)"],
        ["'disk_var_pct'=40.0%;80;95;0;100"]⟩ := by
  have h := disk_parse_error_continues defaultConfig initDiskState
    [("mountpoint", JVal.str "/"), ("used_pct", JVal.null)]
    [JVal.obj [("mountpoint", JVal.str "/var"), ("used_pct", JVal.str "40")]] "/"
    rfl (by decide) rfl
  exact h.1.trans (by decide)

/-- C9: when, after allow-list filtering, zero devices were successfully
evaluated, the disk block appends the dedicated UNKNOWN message listing
the allow-list tuple and the truthy non-pseudo mount points of the
response, and its severity is exactly 3. -/
theorem disk_zero_processed_unknown (cfg : Config) (dvs : List JVal) (diskData : JVal)
    (dv : JVal) (st : DiskState) (am : List String)
    (hget : pyDictGet diskData "devices" (JVal.arr []) = some dv)
    (hiter : iterElems dv = some dvs)
    (hloop : diskLoop cfg dvs initDiskState = some st)
    (hzero : st.processed = 0)
    (ham : availableMounts dvs = some am) :
    diskBlock cfg diskData = some (3, st.msgs ++ [noPrimaryMsg am], st.perfs) := by
  have hle := diskLoop_sev_le cfg dvs initDiskState st hloop
  simp only [initDiskState] at hle
  have hmax : max st.sev 3 = 3 := by omega
  simp [diskBlock, hget, hiter, hloop, hzero, ham, hmax]

theorem disk_zero_processed_unknown_witness :
    diskBlock defaultConfig
      (JVal.obj [("devices", JVal.arr
        [JVal.obj [("mountpoint", JVal.str "/dev/ada0"), ("used_pct", JVal.str "85")]])]) =
      some (3, ["Disk check UNKNOWN: No primary filesystem found (('/', '/usr', '/var', '/home', '/cf', '/var/log')). Available mounts: [None]"], []) := by
  have h := disk_zero_processed_unknown defaultConfig
    [JVal.obj [("mountpoint", JVal.str "/dev/ada0"), ("used_pct", JVal.str "85")]]
    (JVal.obj [("devices", JVal.arr
      [JVal.obj [("mountpoint", JVal.str "/dev/ada0"), ("used_pct", JVal.str "85")]])])
    (JVal.arr [JVal.obj [("mountpoint", JVal.str "/dev/ada0"), ("used_pct", JVal.str "85")]])
    ⟨0, 0, [], []⟩ [] rfl rfl rfl rfl rfl
  exact h.trans (by decide)

/-- Configuration with a positive disk warning threshold but a
non-positive critical one, refuting the "OK whenever the warning threshold
is positive" reading. -/
def cfgPosWarnZeroCrit : Config :=
  ⟨DEFAULT_CPU_WARN, DEFAULT_CPU_CRIT, DEFAULT_MEM_WARN, DEFAULT_MEM_CRIT,
   PyNum.float (1 : Q), PyNum.float (0 : Q)⟩

/-- C10 counterexample: a primary device with no `used_pct` defaults to
0.0 and is classified normally — but with warn=1.0 (positive) and
crit=0.0 the result is CRITICAL, not OK, because `0 >= crit` is tested
first; "OK whenever the warning threshold is positive" is false. -/
theorem disk_missing_used_pct_counterexample :
    (0 : Q) < cfgPosWarnZeroCrit.disk_warn.toQ ∧
    diskBlock cfgPosWarnZeroCrit
      (JVal.obj [("devices", JVal.arr [JVal.obj [("mountpoint", JVal.str "/")]])]) =
      some (2, ["Disk /: 0.0% (CRITICAL)"], ["'disk_root_pct'=0.0%;1.0;0.0;0;100"]) := by
  exact ⟨by decide, by decide⟩

theorem qLt_def (a b : Q) : (a < b) = (a.num * b.den < b.num * a.den) := rfl

theorem qLe_def (a b : Q) : (a ≤ b) = (a.num * b.den ≤ b.num * a.den) := rfl

theorem qZero_num : (0 : Q).num = 0 := rfl

theorem qZero_den : (0 : Q).den = 1 := rfl

theorem check_threshold_zero_pos (w c : Q) (hw : (0 : Q) < w) (hc : (0 : Q) < c) :
    check_threshold (0 : Q) w c = (0, "OK") := by
  have hw' : ¬w ≤ (0 : Q) := by
    simp only [qLt_def, qLe_def, qZero_num, qZero_den, zero_mul, mul_one] at hw ⊢
    omega
  have hc' : ¬c ≤ (0 : Q) := by
    simp only [qLt_def, qLe_def, qZero_num, qZero_den, zero_mul, mul_one] at hc ⊢
    omega
  unfold check_threshold
  rw [if_neg hc', if_neg hw']

/-- C10 (amended): a primary-mount device with `used_pct` entirely absent
silently defaults the value to 0, is classified normally and counted as
processed, with no error message and no severity increase beyond the
classifier's own result — and that result is OK whenever **both**
thresholds are positive (a non-positive crit makes `0 >= crit` CRITICAL
even with a positive warn). -/
theorem disk_missing_used_pct_default_zero (cfg : Config) (st : DiskState)
    (fields : List (String × JVal)) (rest : List JVal) (mp : String)
    (hmp : List.lookup "mountpoint" fields = some (JVal.str mp))
    (hin : mp ∈ PRIMARY_MOUNT_POINTS)
    (hnone : List.lookup "used_pct" fields = none) :
    diskLoop cfg (JVal.obj fields :: rest) st =
      diskLoop cfg rest ⟨st.processed + 1,
        max st.sev (check_threshold (0 : Q) cfg.disk_warn.toQ cfg.disk_crit.toQ).1,
        st.msgs ++ [diskSuccessMsg mp (0 : Q)
          (check_threshold (0 : Q) cfg.disk_warn.toQ cfg.disk_crit.toQ).2],
        st.perfs ++ [diskSuccessPerf cfg mp (0 : Q)]⟩ ∧
    ((0 : Q) < cfg.disk_warn.toQ → (0 : Q) < cfg.disk_crit.toQ →
      check_threshold (0 : Q) cfg.disk_warn.toQ cfg.disk_crit.toQ = (0, "OK")) := by
  refine ⟨?_, ?_⟩
  · simp [diskLoop, hmp, hin, hnone, pyFloat]
  · intro hw hc
    exact check_threshold_zero_pos _ _ hw hc

theorem disk_missing_used_pct_default_zero_witness :
    diskLoop defaultConfig [JVal.obj [("mountpoint", JVal.str "/")]] initDiskState =
      some ⟨1, 0, ["Disk /: 0.0% (OK)"], ["'disk_root_pct'=0.0%;80;95;0;100"]⟩ ∧
    check_threshold (0 : Q) defaultConfig.disk_warn.toQ defaultConfig.disk_crit.toQ =
      (0, "OK") := by
  have h := disk_missing_used_pct_default_zero defaultConfig initDiskState
    [("mountpoint", JVal.str "/")] [] "/" rfl (by decide) rfl
  exact ⟨h.1.trans (by decide), h.2 (by decide) (by decide)⟩

